import Mathlib

/-!
Verification of the ranking core of the vroom vehicle-routing engine
(`src/structures/vroom/solution_indicators.h`): the `SolutionIndicators`
value type, its aggregating constructor, and the conditional objective
comparator `operator<` (written `betterThan` below).

Machine integers are modelled by `Nat` (all indicator fields are
non-negative accumulators) and the profit computation by exact `Int`
arithmetic, matching the code's signed 64-bit computation under the
documented no-overflow precondition.
-/

namespace Vroom

/-- The `Eval` triple `(cost, duration, distance)` of non-negative
accumulators, combined componentwise. -/
structure Eval where
  cost : Nat
  duration : Nat
  distance : Nat
deriving DecidableEq, Repr

/-- The zero (identity) `Eval`, the accumulator's initial value. -/
def Eval.zero : Eval := ⟨0, 0, 0⟩

/-- Componentwise combination of two `Eval`s (`operator+=`). -/
def Eval.add (a b : Eval) : Eval :=
  ⟨a.cost + b.cost, a.duration + b.duration, a.distance + b.distance⟩

/-- The core value type from `solution_indicators.h`: summary indicators of
one candidate solution. `routes_hash` is the shape fingerprint of the
multiset of route sizes. -/
structure SolutionIndicators where
  priority_sum : Nat
  assigned : Nat
  eval : Eval
  used_vehicles : Nat
  routes_hash : Nat
deriving DecidableEq, Repr

/-- `DURATION_FACTOR` from the code comment in `operator<`. -/
def DURATION_FACTOR : Int := 100

/-- `COST_FACTOR` from the code comment in `operator<`. -/
def COST_FACTOR : Int := 3600

/-- `PRIORITY_SCALE = DURATION_FACTOR * COST_FACTOR = 360000`. -/
def PRIORITY_SCALE : Int := DURATION_FACTOR * COST_FACTOR

/-- The signed profit `priority_sum * PRIORITY_SCALE - eval.cost`
computed in `operator<` for the priority branch. -/
def profit (s : SolutionIndicators) : Int :=
  (s.priority_sum : Int) * PRIORITY_SCALE - (s.eval.cost : Int)

/-- Lexicographic comparison of two equally long tuples of naturals, given
as a list of component pairs: the semantics of `std::tie(...) <
std::tie(...)`. -/
def lexLt : List (Nat × Nat) → Bool
  | [] => false
  | (x, y) :: rest => if x < y then true else if y < x then false else lexLt rest

/-- `operator<(lhs, rhs)` from `solution_indicators.h`: true when `lhs` is
the preferred solution.  If either side has a positive `priority_sum`, the
profit branch compares profits and falls back to the tie-break tuple
`(assigned desc, used_vehicles asc, duration asc, distance asc,
routes_hash asc)`; otherwise the lexicographic branch compares
`(assigned desc, cost asc, used_vehicles asc, duration asc, distance asc,
routes_hash asc)`. -/
def betterThan (lhs rhs : SolutionIndicators) : Bool :=
  if (0 < lhs.priority_sum) || (0 < rhs.priority_sum) then
    if profit lhs ≠ profit rhs then
      profit lhs > profit rhs
    else
      lexLt [(rhs.assigned, lhs.assigned),
             (lhs.used_vehicles, rhs.used_vehicles),
             (lhs.eval.duration, rhs.eval.duration),
             (lhs.eval.distance, rhs.eval.distance),
             (lhs.routes_hash, rhs.routes_hash)]
  else
    lexLt [(rhs.assigned, lhs.assigned),
           (lhs.eval.cost, rhs.eval.cost),
           (lhs.used_vehicles, rhs.used_vehicles),
           (lhs.eval.duration, rhs.eval.duration),
           (lhs.eval.distance, rhs.eval.distance),
           (lhs.routes_hash, rhs.routes_hash)]

/-- The priority-mode (profit) comparison as the spec states it: higher
profit wins; on equal profit, ties break in the fixed order more assigned,
fewer used vehicles, lower duration, lower distance, lower hash. -/
def specProfitBetter (a b : SolutionIndicators) : Prop :=
  profit b < profit a ∨
    (profit a = profit b ∧
      (b.assigned < a.assigned ∨
        (a.assigned = b.assigned ∧
          (a.used_vehicles < b.used_vehicles ∨
            (a.used_vehicles = b.used_vehicles ∧
              (a.eval.duration < b.eval.duration ∨
                (a.eval.duration = b.eval.duration ∧
                  (a.eval.distance < b.eval.distance ∨
                    (a.eval.distance = b.eval.distance ∧
                      a.routes_hash < b.routes_hash)))))))))

/-- The lexicographic-mode comparison as the spec states it: more assigned
jobs wins, then lower cost, fewer used vehicles, lower duration, lower
distance, lower hash. -/
def specLexBetter (a b : SolutionIndicators) : Prop :=
  b.assigned < a.assigned ∨
    (a.assigned = b.assigned ∧
      (a.eval.cost < b.eval.cost ∨
        (a.eval.cost = b.eval.cost ∧
          (a.used_vehicles < b.used_vehicles ∨
            (a.used_vehicles = b.used_vehicles ∧
              (a.eval.duration < b.eval.duration ∨
                (a.eval.duration = b.eval.duration ∧
                  (a.eval.distance < b.eval.distance ∨
                    (a.eval.distance = b.eval.distance ∧
                      a.routes_hash < b.routes_hash)))))))))

/-- A route wrapper as consumed by the aggregating constructor: a value
exposing its ordered job sequence `route`, with size and emptiness derived
from it. -/
structure RawRoute (Job : Type) where
  route : List Job
deriving DecidableEq, Repr

/-- Size of a route wrapper (`std::size(r)` / `r.route.size()`). -/
def RawRoute.size {Job : Type} (r : RawRoute Job) : Nat := r.route.length

/-- Emptiness test on a route wrapper (`r.empty()`). -/
def RawRoute.isEmpty {Job : Type} (r : RawRoute Job) : Bool := r.route.isEmpty

/-- The external Cost Model collaborator consumed by the aggregator:
`priority_sum_for_route(input, route)` and
`route_eval_for_vehicle(input, v_rank, route)`, both pure. -/
structure CostModel (Input Job : Type) where
  priority_sum_for_route : Input → List Job → Nat
  route_eval_for_vehicle : Input → Nat → List Job → Eval

/-- Modelled from the spec: `get_vector_hash` (declared in
`utils/helpers.h`, not among the sources) reduces a sequence of 32-bit
route sizes to one 32-bit value by folding through a deterministic,
order-sensitive FNV-style combining hash seeded with a fixed constant. -/
def get_vector_hash (v : List Nat) : Nat :=
  v.foldl (fun h x => ((h ^^^ x % 2 ^ 32) * 16777619) % 2 ^ 32) 2166136261

/-- One step of the aggregation loop body in the `SolutionIndicators`
constructor: fold state is the partial indicators plus the running vehicle
rank `v_rank`. -/
def aggStep {Input Job : Type} (cm : CostModel Input Job) (input : Input)
    (st : SolutionIndicators × Nat) (r : RawRoute Job) :
    SolutionIndicators × Nat :=
  ({ st.1 with
     priority_sum := st.1.priority_sum + cm.priority_sum_for_route input r.route
     assigned := st.1.assigned + r.route.length
     eval := st.1.eval.add (cm.route_eval_for_vehicle input st.2 r.route)
     used_vehicles := st.1.used_vehicles + if r.isEmpty then 0 else 1 },
   st.2 + 1)

/-- The aggregating constructor
`SolutionIndicators(const Input&, const std::vector<Route>&)`: zero
initialize, loop over the routes in vehicle-slot order accumulating
priority, assigned count, eval and used vehicles, then hash the sorted
route sizes. -/
def buildIndicators {Input Job : Type} (cm : CostModel Input Job)
    (input : Input) (sol : List (RawRoute Job)) : SolutionIndicators :=
  let init : SolutionIndicators :=
    { priority_sum := 0, assigned := 0, eval := Eval.zero,
      used_vehicles := 0, routes_hash := 0 }
  let looped := (sol.foldl (aggStep cm input) (init, 0)).1
  let routes_sizes := sol.map RawRoute.size
  { looped with
    routes_hash := get_vector_hash (List.insertionSort (· ≤ ·) routes_sizes) }

/-- A default-constructed `SolutionIndicators` (`SolutionIndicators() =
default;`): the member initializers give `priority_sum = 0`,
`assigned = 0`, `eval = Eval.zero` and `used_vehicles = 0`, but
`routes_hash` has no initializer; the indeterminate value it is left with
is modelled by the parameter `h`. -/
def defaultConstructed (h : Nat) : SolutionIndicators :=
  { priority_sum := 0, assigned := 0, eval := Eval.zero,
    used_vehicles := 0, routes_hash := h }

/-! ## Basic lemmas about the comparator -/

lemma lexLt_cons (x y : Nat) (rest : List (Nat × Nat)) :
    lexLt ((x, y) :: rest) = true ↔ x < y ∨ (x = y ∧ lexLt rest = true) := by
  simp only [lexLt]
  split_ifs with h1 h2
  · simp [h1]
  · constructor
    · intro hf; exact hf.elim
    · rintro (h | ⟨rfl, _⟩)
      · exact absurd h h1
      · exact absurd h2 (lt_irrefl x)
  · have hxy : x = y := by omega
    simp [hxy]

lemma lexLt_nil_eq : lexLt [] = true ↔ False := by simp [lexLt]

/-- The profit branch of `operator<` computes exactly the spec's
priority-mode comparison. -/
lemma betterThan_profit_iff (a b : SolutionIndicators)
    (h : 0 < a.priority_sum ∨ 0 < b.priority_sum) :
    betterThan a b = true ↔ specProfitBetter a b := by
  have hb : ((0 < a.priority_sum) || (0 < b.priority_sum)) = true := by
    simpa using h
  rw [betterThan, if_pos hb]
  by_cases hp : profit a = profit b
  · rw [if_neg (by simpa using hp)]
    simp only [lexLt_cons, lexLt_nil_eq, and_false, or_false, specProfitBetter,
      hp, lt_self_iff_false, false_or, true_and]
    omega
  · rw [if_pos (by simpa using hp)]
    simp only [specProfitBetter, decide_eq_true_eq, gt_iff_lt, profit,
      PRIORITY_SCALE, DURATION_FACTOR, COST_FACTOR] at hp ⊢
    omega

/-- The default branch of `operator<` computes exactly the spec's
lexicographic comparison. -/
lemma betterThan_lex_iff (a b : SolutionIndicators)
    (ha : a.priority_sum = 0) (hb : b.priority_sum = 0) :
    betterThan a b = true ↔ specLexBetter a b := by
  have hcond : ((0 < a.priority_sum) || (0 < b.priority_sum)) = false := by
    simp [ha, hb]
  rw [betterThan, hcond]
  simp only [Bool.false_eq_true, if_false, lexLt_cons, lexLt_nil_eq,
    and_false, or_false, specLexBetter]
  omega

/-- If `betterThan a b` holds then `betterThan b a` does not. -/
lemma betterThan_asymm (a b : SolutionIndicators)
    (h : betterThan a b = true) : betterThan b a = false := by
  rcases Bool.eq_false_or_eq_true (betterThan b a) with hba | hba
  swap
  · exact hba
  exfalso
  by_cases hmode : 0 < a.priority_sum ∨ 0 < b.priority_sum
  · rw [betterThan_profit_iff a b hmode] at h
    rw [betterThan_profit_iff b a hmode.symm] at hba
    simp only [specProfitBetter, profit, PRIORITY_SCALE, DURATION_FACTOR,
      COST_FACTOR] at h hba
    omega
  · have ha : a.priority_sum = 0 := by omega
    have hb : b.priority_sum = 0 := by omega
    rw [betterThan_lex_iff a b ha hb] at h
    rw [betterThan_lex_iff b a hb ha] at hba
    simp only [specLexBetter] at h hba
    omega

/-- `betterThan` is irreflexive. -/
lemma betterThan_irrefl (a : SolutionIndicators) : betterThan a a = false := by
  rcases Bool.eq_false_or_eq_true (betterThan a a) with h | h
  · have := betterThan_asymm a a h
    rw [h] at this
    exact absurd this (by simp)
  · exact h

/-- Within a single priority regime, `betterThan` is transitive. -/
lemma betterThan_trans (a b c : SolutionIndicators)
    (hreg : (0 < a.priority_sum ∧ 0 < b.priority_sum ∧ 0 < c.priority_sum) ∨
      (a.priority_sum = 0 ∧ b.priority_sum = 0 ∧ c.priority_sum = 0))
    (hab : betterThan a b = true) (hbc : betterThan b c = true) :
    betterThan a c = true := by
  rcases hreg with ⟨ha, hb, hc⟩ | ⟨ha, hb, hc⟩
  · rw [betterThan_profit_iff a b (Or.inl ha)] at hab
    rw [betterThan_profit_iff b c (Or.inl hb)] at hbc
    rw [betterThan_profit_iff a c (Or.inl ha)]
    simp only [specProfitBetter, profit, PRIORITY_SCALE, DURATION_FACTOR,
      COST_FACTOR] at hab hbc ⊢
    omega
  · rw [betterThan_lex_iff a b ha hb] at hab
    rw [betterThan_lex_iff b c hb hc] at hbc
    rw [betterThan_lex_iff a c ha hc]
    simp only [specLexBetter] at hab hbc ⊢
    omega

/-! ## Algebra of `Eval` accumulation -/

lemma Eval.zero_add (e : Eval) : Eval.zero.add e = e := by
  cases e; simp [Eval.add, Eval.zero]

lemma Eval.add_zero (e : Eval) : e.add Eval.zero = e := by
  cases e; simp [Eval.add, Eval.zero]

lemma Eval.add_assoc (x y z : Eval) : (x.add y).add z = x.add (y.add z) := by
  cases x; cases y; cases z
  simp only [Eval.add, Eval.mk.injEq]
  omega

/-- Combination of a list of `Eval`s in order. -/
def evalSum (l : List Eval) : Eval := l.foldl Eval.add Eval.zero

lemma foldl_eval_add_shift (l : List Eval) (x y : Eval) :
    l.foldl Eval.add (x.add y) = x.add (l.foldl Eval.add y) := by
  induction l generalizing y with
  | nil => rfl
  | cons e rest ih =>
      simp only [List.foldl_cons, Eval.add_assoc, ih]

lemma evalSum_cons (e : Eval) (l : List Eval) :
    evalSum (e :: l) = e.add (evalSum l) := by
  simp only [evalSum, List.foldl_cons, Eval.zero_add]
  rw [← Eval.add_zero e, foldl_eval_add_shift, Eval.add_zero]

/-- The per-route `Eval` of the route at rank `i`, as the spec describes
it: computed by the cost model with that route's vehicle rank. -/
def rankedEvals {Input Job : Type} (cm : CostModel Input Job) (input : Input)
    (sol : List (RawRoute Job)) (k : Nat) : List Eval :=
  List.zipWith (fun i r => cm.route_eval_for_vehicle input i r.route)
    (List.range' k sol.length) sol

lemma rankedEvals_cons {Input Job : Type} (cm : CostModel Input Job)
    (input : Input) (r : RawRoute Job) (rest : List (RawRoute Job)) (k : Nat) :
    rankedEvals cm input (r :: rest) k =
      cm.route_eval_for_vehicle input k r.route :: rankedEvals cm input rest (k + 1) := by
  simp [rankedEvals, List.range'_succ]

/-- Invariant of the aggregation loop: starting from state `(s0, k)`, the
loop adds the route priority sums, job counts, ranked evals and non-empty
counts, and leaves `routes_hash` untouched. -/
lemma aggLoop_spec {Input Job : Type} (cm : CostModel Input Job) (input : Input)
    (sol : List (RawRoute Job)) (s0 : SolutionIndicators) (k : Nat) :
    (sol.foldl (aggStep cm input) (s0, k)).1 =
      { priority_sum := s0.priority_sum +
          (sol.map (fun r => cm.priority_sum_for_route input r.route)).sum,
        assigned := s0.assigned + (sol.map (fun r => r.route.length)).sum,
        eval := s0.eval.add (evalSum (rankedEvals cm input sol k)),
        used_vehicles := s0.used_vehicles +
          (sol.filter (fun r => !r.isEmpty)).length,
        routes_hash := s0.routes_hash } := by
  induction sol generalizing s0 k with
  | nil =>
      cases s0
      simp [rankedEvals, evalSum, Eval.add_zero]
  | cons r rest ih =>
      rw [List.foldl_cons]
      rw [show aggStep cm input (s0, k) r =
        ({ priority_sum := s0.priority_sum + cm.priority_sum_for_route input r.route,
           assigned := s0.assigned + r.route.length,
           eval := s0.eval.add (cm.route_eval_for_vehicle input k r.route),
           used_vehicles := s0.used_vehicles + if r.isEmpty then 0 else 1,
           routes_hash := s0.routes_hash }, k + 1) from rfl]
      rw [ih]
      rw [rankedEvals_cons, evalSum_cons]
      simp only [List.map_cons, List.sum_cons, List.filter_cons,
        SolutionIndicators.mk.injEq, Eval.add_assoc]
      refine ⟨by omega, by omega, trivial, ?_, trivial⟩
      by_cases he : r.isEmpty
      all_goals simp [he]
      all_goals omega

/-- The constructor in terms of its postconditions: each field equals the
corresponding aggregate of the route collection. -/
lemma buildIndicators_eq {Input Job : Type} (cm : CostModel Input Job)
    (input : Input) (sol : List (RawRoute Job)) :
    buildIndicators cm input sol =
      { priority_sum := (sol.map (fun r => cm.priority_sum_for_route input r.route)).sum,
        assigned := (sol.map (fun r => r.route.length)).sum,
        eval := evalSum (rankedEvals cm input sol 0),
        used_vehicles := (sol.filter (fun r => !r.isEmpty)).length,
        routes_hash := get_vector_hash
          (List.insertionSort (· ≤ ·) (sol.map RawRoute.size)) } := by
  rw [buildIndicators]
  rw [aggLoop_spec]
  simp [Eval.zero_add]

/-! ## Claim theorems -/

/-- Claim C1: the comparator is asymmetric and hence irreflexive: for every
pair of `SolutionIndicators` `a` and `b`, `betterThan a b` and
`betterThan b a` are never both true, and `betterThan a a` is false, in both
the priority and the lexicographic mode. -/
theorem C1_comparator_asymmetric_irreflexive (a b : SolutionIndicators) :
    (betterThan a b && betterThan b a) = false ∧ betterThan a a = false := by
  refine ⟨?_, betterThan_irrefl a⟩
  rcases Bool.eq_false_or_eq_true (betterThan a b) with h | h
  · have hba := betterThan_asymm a b h
    simp [h, hba]
  · simp [h]

/-- Claim C2: mode selection is per comparison and symmetric in the
operands: the priority branch decides the comparison if and only if at
least one operand has a positive `priority_sum`; when both are zero the
lexicographic cascade decides it exclusively, irrespective of the `eval`
values. -/
theorem C2_mode_selection (a b : SolutionIndicators) :
    ((0 < a.priority_sum ∨ 0 < b.priority_sum) →
      (betterThan a b = true ↔ specProfitBetter a b)) ∧
    (a.priority_sum = 0 ∧ b.priority_sum = 0 →
      (betterThan a b = true ↔ specLexBetter a b)) :=
  ⟨betterThan_profit_iff a b, fun h => betterThan_lex_iff a b h.1 h.2⟩

/-- Witness for C2 at concrete operands: one priority-mode pair and one
lexicographic pair. -/
theorem C2_mode_selection_witness :
    (betterThan ⟨3, 2, ⟨10, 1, 1⟩, 1, 5⟩ ⟨0, 2, ⟨9, 1, 1⟩, 1, 4⟩ = true ↔
      specProfitBetter ⟨3, 2, ⟨10, 1, 1⟩, 1, 5⟩ ⟨0, 2, ⟨9, 1, 1⟩, 1, 4⟩) ∧
    (betterThan ⟨0, 2, ⟨10, 1, 1⟩, 1, 5⟩ ⟨0, 2, ⟨9, 1, 1⟩, 1, 4⟩ = true ↔
      specLexBetter ⟨0, 2, ⟨10, 1, 1⟩, 1, 5⟩ ⟨0, 2, ⟨9, 1, 1⟩, 1, 4⟩) :=
  ⟨(C2_mode_selection _ _).1 (Or.inl (by decide)),
   (C2_mode_selection _ _).2 ⟨rfl, rfl⟩⟩

/-- Claim C3: in priority mode the comparison is decided by
`profit = priority_sum * 360000 - eval.cost` with the fixed tie-break
cascade (more assigned, fewer vehicles, lower duration, lower distance,
lower hash); and on the spec's concrete example A(priority 5, cost 100000)
vs B(priority 4, cost 50000) the profits are 1700000 and 1390000 and A
wins. -/
theorem C3_priority_mode_profit :
    PRIORITY_SCALE = 360000 ∧
    (∀ a b : SolutionIndicators, (0 < a.priority_sum ∨ 0 < b.priority_sum) →
      (betterThan a b = true ↔ specProfitBetter a b)) ∧
    profit ⟨5, 8, ⟨100000, 3, 4⟩, 2, 11⟩ = 1700000 ∧
    profit ⟨4, 8, ⟨50000, 3, 4⟩, 2, 12⟩ = 1390000 ∧
    betterThan ⟨5, 8, ⟨100000, 3, 4⟩, 2, 11⟩ ⟨4, 8, ⟨50000, 3, 4⟩, 2, 12⟩ = true :=
  ⟨by decide, fun a b h => betterThan_profit_iff a b h, by decide, by decide,
   by decide⟩

/-- Witness for C3: the general priority-mode characterization applied at
the spec's example pair. -/
theorem C3_priority_mode_profit_witness :
    betterThan ⟨5, 8, ⟨100000, 3, 4⟩, 2, 11⟩ ⟨4, 8, ⟨50000, 3, 4⟩, 2, 12⟩ = true ↔
      specProfitBetter ⟨5, 8, ⟨100000, 3, 4⟩, 2, 11⟩ ⟨4, 8, ⟨50000, 3, 4⟩, 2, 12⟩ :=
  C3_priority_mode_profit.2.1 _ _ (Or.inl (by decide))

/-- Claim C4: in lexicographic mode the comparison is the cascade more
assigned, lower cost, fewer vehicles, lower duration, lower distance,
lower hash, stopping at the first discriminating field; on the spec's
examples, assigned count dominates cost, and on equal assigned the lower
cost wins. -/
theorem C4_lexicographic_mode :
    (∀ a b : SolutionIndicators, a.priority_sum = 0 → b.priority_sum = 0 →
      (betterThan a b = true ↔ specLexBetter a b)) ∧
    betterThan ⟨0, 10, ⟨500, 0, 0⟩, 2, 0⟩ ⟨0, 9, ⟨100, 0, 0⟩, 1, 0⟩ = true ∧
    betterThan ⟨0, 10, ⟨480, 6, 7⟩, 2, 3⟩ ⟨0, 10, ⟨500, 6, 7⟩, 2, 3⟩ = true :=
  ⟨fun a b ha hb => betterThan_lex_iff a b ha hb, by decide, by decide⟩

/-- Witness for C4: the general lexicographic characterization applied at
the spec's first example pair. -/
theorem C4_lexicographic_mode_witness :
    betterThan ⟨0, 10, ⟨500, 0, 0⟩, 2, 0⟩ ⟨0, 9, ⟨100, 0, 0⟩, 1, 0⟩ = true ↔
      specLexBetter ⟨0, 10, ⟨500, 0, 0⟩, 2, 0⟩ ⟨0, 9, ⟨100, 0, 0⟩, 1, 0⟩ :=
  C4_lexicographic_mode.1 _ _ rfl rfl

/-- Claim C5: final tie handling in both modes: on full field equality
`betterThan` is false, and when the operands differ only in `routes_hash`
the lower hash wins, in whichever mode applies. -/
theorem C5_tie_handling (a b : SolutionIndicators) :
    (a = b → betterThan a b = false) ∧
    (a.priority_sum = b.priority_sum → a.assigned = b.assigned →
     a.eval = b.eval → a.used_vehicles = b.used_vehicles →
     a.routes_hash < b.routes_hash → betterThan a b = true) := by
  constructor
  · rintro rfl
    exact betterThan_irrefl a
  · intro h1 h2 h3 h4 h5
    have hc : a.eval.cost = b.eval.cost := by rw [h3]
    have hd : a.eval.duration = b.eval.duration := by rw [h3]
    have he : a.eval.distance = b.eval.distance := by rw [h3]
    by_cases hmode : 0 < a.priority_sum ∨ 0 < b.priority_sum
    · rw [betterThan_profit_iff a b hmode]
      simp only [specProfitBetter, profit, PRIORITY_SCALE, DURATION_FACTOR,
        COST_FACTOR]
      omega
    · have ha : a.priority_sum = 0 := by omega
      have hb : b.priority_sum = 0 := by omega
      rw [betterThan_lex_iff a b ha hb]
      simp only [specLexBetter]
      omega

/-- Witness for C5: a full tie in priority mode is equivalent, and a
hash-only difference in priority mode resolves toward the lower hash. -/
theorem C5_tie_handling_witness :
    betterThan ⟨2, 3, ⟨7, 8, 9⟩, 1, 5⟩ ⟨2, 3, ⟨7, 8, 9⟩, 1, 5⟩ = false ∧
    betterThan ⟨2, 3, ⟨7, 8, 9⟩, 1, 5⟩ ⟨2, 3, ⟨7, 8, 9⟩, 1, 6⟩ = true :=
  ⟨(C5_tie_handling _ _).1 rfl,
   (C5_tie_handling _ _).2 rfl rfl rfl rfl (by decide)⟩

/-- Claim C6: within a single priority regime the comparator is transitive:
for `a`, `b`, `c` all with positive `priority_sum` or all with zero
`priority_sum`, `betterThan a b` and `betterThan b c` imply
`betterThan a c`. -/
theorem C6_transitive_within_regime (a b c : SolutionIndicators)
    (hreg : (0 < a.priority_sum ∧ 0 < b.priority_sum ∧ 0 < c.priority_sum) ∨
      (a.priority_sum = 0 ∧ b.priority_sum = 0 ∧ c.priority_sum = 0))
    (hab : betterThan a b = true) (hbc : betterThan b c = true) :
    betterThan a c = true :=
  betterThan_trans a b c hreg hab hbc

/-- Witness for C6 on a concrete zero-priority chain. -/
theorem C6_transitive_within_regime_witness :
    betterThan ⟨0, 3, ⟨5, 0, 0⟩, 1, 0⟩ ⟨0, 1, ⟨9, 0, 0⟩, 1, 0⟩ = true :=
  C6_transitive_within_regime ⟨0, 3, ⟨5, 0, 0⟩, 1, 0⟩ ⟨0, 2, ⟨7, 0, 0⟩, 1, 0⟩
    ⟨0, 1, ⟨9, 0, 0⟩, 1, 0⟩ (Or.inr ⟨rfl, rfl, rfl⟩) (by decide) (by decide)

/-- Claim C7: aggregator postconditions: the constructed indicators carry
the sum of the cost model's per-route priority sums, the total job count,
the combination of the per-route `Eval`s each computed at its vehicle rank
in the given order, the number of non-empty routes, and the fingerprint of
the collected route sizes. -/
theorem C7_aggregator_postconditions {Input Job : Type}
    (cm : CostModel Input Job) (input : Input) (sol : List (RawRoute Job)) :
    (buildIndicators cm input sol).priority_sum =
      (sol.map (fun r => cm.priority_sum_for_route input r.route)).sum ∧
    (buildIndicators cm input sol).assigned =
      (sol.map (fun r => r.route.length)).sum ∧
    (buildIndicators cm input sol).eval =
      evalSum (List.zipWith (fun i r => cm.route_eval_for_vehicle input i r.route)
        (List.range' 0 sol.length) sol) ∧
    (buildIndicators cm input sol).used_vehicles =
      (sol.filter (fun r => !r.isEmpty)).length ∧
    (buildIndicators cm input sol).routes_hash =
      get_vector_hash (List.insertionSort (· ≤ ·)
        (sol.map (fun r => r.route.length))) := by
  rw [buildIndicators_eq]
  exact ⟨rfl, rfl, rfl, rfl, rfl⟩

/-- Claim C8: fingerprint permutation invariance: aggregating any
permutation of the same route collection yields the same `routes_hash`,
because the route sizes are sorted ascending before hashing. -/
theorem C8_fingerprint_permutation_invariance {Input Job : Type}
    (cm : CostModel Input Job) (input : Input)
    (sol₁ sol₂ : List (RawRoute Job)) (h : sol₁.Perm sol₂) :
    (buildIndicators cm input sol₁).routes_hash =
    (buildIndicators cm input sol₂).routes_hash := by
  rw [buildIndicators_eq, buildIndicators_eq]
  have hperm : (sol₁.map RawRoute.size).Perm (sol₂.map RawRoute.size) :=
    h.map _
  have hs₁ : List.Sorted (· ≤ ·)
      (List.insertionSort (· ≤ ·) (sol₁.map RawRoute.size)) :=
    List.sorted_insertionSort _ _
  have hs₂ : List.Sorted (· ≤ ·)
      (List.insertionSort (· ≤ ·) (sol₂.map RawRoute.size)) :=
    List.sorted_insertionSort _ _
  have hp : (List.insertionSort (· ≤ ·) (sol₁.map RawRoute.size)).Perm
      (List.insertionSort (· ≤ ·) (sol₂.map RawRoute.size)) :=
    (List.perm_insertionSort _ _).trans
      (hperm.trans (List.perm_insertionSort _ _).symm)
  rw [List.eq_of_perm_of_sorted hp hs₁ hs₂]

/-- A concrete cost model instance used to exercise the aggregator. -/
def witnessCostModel : CostModel Unit Nat where
  priority_sum_for_route := fun _ r => r.length
  route_eval_for_vehicle := fun _ i r => ⟨i + r.length, r.length, i⟩

/-- Witness for C8: two slot orders of the same three routes hash alike. -/
theorem C8_fingerprint_permutation_invariance_witness :
    (buildIndicators witnessCostModel () [⟨[1, 2]⟩, ⟨[]⟩, ⟨[3]⟩]).routes_hash =
    (buildIndicators witnessCostModel () [⟨[3]⟩, ⟨[1, 2]⟩, ⟨[]⟩]).routes_hash :=
  C8_fingerprint_permutation_invariance witnessCostModel ()
    [⟨[1, 2]⟩, ⟨[]⟩, ⟨[3]⟩] [⟨[3]⟩, ⟨[1, 2]⟩, ⟨[]⟩] (by decide)

/-- Claim C9: in priority mode `eval.cost` is never consulted after the
profit comparison: two indicators differing by one priority point and
360000 cost units have equal profits, and with all other fields equal
neither is better than the other, although the values differ as fields. -/
theorem C9_equivalence_coarser_than_equality :
    (⟨1, 5, ⟨360000, 7, 9⟩, 2, 42⟩ : SolutionIndicators) ≠
      ⟨2, 5, ⟨720000, 7, 9⟩, 2, 42⟩ ∧
    (⟨1, 5, ⟨360000, 7, 9⟩, 2, 42⟩ : SolutionIndicators).priority_sum ≠
      (⟨2, 5, ⟨720000, 7, 9⟩, 2, 42⟩ : SolutionIndicators).priority_sum ∧
    (⟨1, 5, ⟨360000, 7, 9⟩, 2, 42⟩ : SolutionIndicators).eval.cost ≠
      (⟨2, 5, ⟨720000, 7, 9⟩, 2, 42⟩ : SolutionIndicators).eval.cost ∧
    profit ⟨1, 5, ⟨360000, 7, 9⟩, 2, 42⟩ = profit ⟨2, 5, ⟨720000, 7, 9⟩, 2, 42⟩ ∧
    betterThan ⟨1, 5, ⟨360000, 7, 9⟩, 2, 42⟩ ⟨2, 5, ⟨720000, 7, 9⟩, 2, 42⟩ = false ∧
    betterThan ⟨2, 5, ⟨720000, 7, 9⟩, 2, 42⟩ ⟨1, 5, ⟨360000, 7, 9⟩, 2, 42⟩ = false := by
  decide

/-- Claim C10: a default-constructed `SolutionIndicators` has
`priority_sum`, `assigned` and `used_vehicles` zeroed by member
initializers, while `routes_hash` is left indeterminate, so the outcome of
comparing two default-constructed values depends on the indeterminate hash
values and is not reproducible. -/
theorem C10_default_constructed_indeterminate_hash :
    (∀ h : Nat, (defaultConstructed h).priority_sum = 0 ∧
      (defaultConstructed h).assigned = 0 ∧
      (defaultConstructed h).used_vehicles = 0) ∧
    (∃ h₁ h₂ h₃ h₄ : Nat,
      betterThan (defaultConstructed h₁) (defaultConstructed h₂) ≠
      betterThan (defaultConstructed h₃) (defaultConstructed h₄)) :=
  ⟨fun _ => ⟨rfl, rfl, rfl⟩, ⟨0, 1, 0, 0, by decide⟩⟩

end Vroom
